import Mathlib

/-!
Verification of the jsonrpc-async client (`jsonrpc_async/jsonrpc.py`).

The development shallowly embeds the module's pure logic:

* `JsonValue` models the Python values that appear in JSON-RPC traffic
  (the result of decoding JSON, and the arguments callers pass).
* `Server.parse_result` embeds the static method of the same name.
* `Server.serialize_data` embeds the dictionary built by `Server.serialize`
  (the final `json.dumps` encoding step is an external codec and is kept
  abstract: theorems about serialized bodies quantify over the encoder).
* `Server.__request` embeds the private dispatch method, returning either
  the `send_request` invocation it performs or the `ProtocolError` it raises.
* `Server.send_request` embeds the response-handling coroutine from the
  point where an HTTP response object exists, recording which resources
  were touched (body read, response released) on each exit path.
* `Method` embeds the attribute-chaining proxy class.

Exceptions are modelled as explicit outcome constructors; Python truthiness
is modelled by `truthy`.
-/

mutual
inductive JsonValue where
  | null
  | bool (b : Bool)
  | num (n : Int)
  | str (s : String)
  | arr (xs : JsonList)
  | obj (fields : JsonFields)
deriving DecidableEq

inductive JsonList where
  | nil
  | cons (v : JsonValue) (rest : JsonList)
deriving DecidableEq

inductive JsonFields where
  | nil
  | cons (k : String) (v : JsonValue) (rest : JsonFields)
deriving DecidableEq
end

def JsonList.isEmpty : JsonList → Bool
  | JsonList.nil => true
  | JsonList.cons _ _ => false

def JsonFields.isEmpty : JsonFields → Bool
  | JsonFields.nil => true
  | JsonFields.cons _ _ _ => false

/-- `d.get(k)` / `k in d` on a Python dict (keys are unique). -/
def JsonFields.lookup (k : String) : JsonFields → Option JsonValue
  | JsonFields.nil => none
  | JsonFields.cons k' v rest => if k' = k then some v else JsonFields.lookup k rest

/-- The removal performed by `d.pop(k, default)` (no-op when the key is absent). -/
def JsonFields.erase (k : String) : JsonFields → JsonFields
  | JsonFields.nil => JsonFields.nil
  | JsonFields.cons k' v rest =>
      if k' = k then rest else JsonFields.cons k' v (JsonFields.erase k rest)

/-- `d[k] = v` on a key not yet present: appended in insertion order. -/
def JsonFields.append (fs : JsonFields) (k : String) (v : JsonValue) : JsonFields :=
  match fs with
  | JsonFields.nil => JsonFields.cons k v JsonFields.nil
  | JsonFields.cons k' v' rest => JsonFields.cons k' v' (JsonFields.append rest k v)

/-- Python truthiness of a JSON value (`if x:`). -/
def truthy : JsonValue → Bool
  | JsonValue.null => false
  | JsonValue.bool b => b
  | JsonValue.num n => decide (n ≠ 0)
  | JsonValue.str s => decide (s ≠ "")
  | JsonValue.arr xs => !xs.isEmpty
  | JsonValue.obj fs => !fs.isEmpty

/-- `isinstance(x, dict)` for decoded JSON values. -/
def isObj : JsonValue → Bool
  | JsonValue.obj _ => true
  | _ => false

/-- Result of `Server.parse_result`: the returned value, the `ProtocolError`
raised (with its argument tuple), or the unintended `AttributeError` raised
when `.get` is called on a non-dict error value. -/
inductive ParseOutcome where
  | ok (v : JsonValue)
  | protocolError (args : List JsonValue)
  | attributeError
deriving DecidableEq

namespace Server

/-- The `elif 'result' not in result: ... else: return result['result']` tail
of `parse_result`. -/
def resultField (fields : JsonFields) : ParseOutcome :=
  match JsonFields.lookup "result" fields with
  | none => ParseOutcome.protocolError [JsonValue.str "Response without a result field"]
  | some v => ParseOutcome.ok v

/-- Embedding of `Server.parse_result`. -/
def parse_result (result : JsonValue) : ParseOutcome :=
  match result with
  | JsonValue.obj fields =>
      match JsonFields.lookup "error" fields with
      | some err =>
          if truthy err then
            match err with
            | JsonValue.obj ef =>
                ParseOutcome.protocolError
                  [(JsonFields.lookup "code" ef).getD (JsonValue.str ""),
                   (JsonFields.lookup "message" ef).getD (JsonValue.str ""),
                   JsonValue.obj fields]
            | _ => ParseOutcome.attributeError
          else resultField fields
      | none => resultField fields
  | _ => ParseOutcome.protocolError [JsonValue.str "Response is not a dictionary"]

/-- The dictionary built by `Server.serialize` before it is handed to
`self.dumps`; `idVal` is the value drawn by `random.randint(1, sys.maxsize)`. -/
def serialize_data (method_name : String) (params : JsonValue)
    (is_notification : Bool) (idVal : Nat) : JsonFields :=
  let base := JsonFields.cons "jsonrpc" (JsonValue.str "2.0")
      (JsonFields.cons "method" (JsonValue.str method_name) JsonFields.nil)
  let withParams := if truthy params then base.append "params" params else base
  if is_notification then withParams else withParams.append "id" (JsonValue.num idVal)

end Server

/-- Result of `Server.__request`: either the `send_request(method_name,
is_notification, params)` invocation it performs (the only path that issues
an HTTP POST) or the `ProtocolError` it raises before any I/O. -/
inductive RequestOutcome where
  | send (method_name : String) (is_notification : Bool) (params : JsonValue)
  | protocolError (msg : String)
deriving DecidableEq

/-- The unwrapping `if len(args) == 1 and isinstance(args[0], collections.Mapping):
args = dict(args[0])`, followed by viewing the tuple as a JSON params value. -/
def unwrapArgs (args : JsonList) : JsonValue :=
  match args with
  | JsonList.cons (JsonValue.obj fields) JsonList.nil => JsonValue.obj fields
  | _ => JsonValue.arr args

namespace Server

/-- Body of `Server.__request` after `_notification` has been popped from
the keyword arguments: the mutual-exclusion check, the single-mapping
unwrap, and `args or kwargs` as the params value. -/
def requestAfterPop (method_name : String) (args : JsonList)
    (is_notification : Bool) (kwargs : JsonFields) : RequestOutcome :=
  if !args.isEmpty && !kwargs.isEmpty then
    RequestOutcome.protocolError "JSON-RPC spec forbids mixing arguments and keyword arguments"
  else
    RequestOutcome.send method_name is_notification
      (if truthy (unwrapArgs args) then unwrapArgs args else JsonValue.obj kwargs)

/-- Embedding of `Server.__request`: first
`is_notification = kwargs.pop('_notification', False)`, then the rest. -/
def __request (method_name : String) (args : JsonList) (kwargs : JsonFields) :
    RequestOutcome :=
  requestAfterPop method_name args
    (truthy ((JsonFields.lookup "_notification" kwargs).getD (JsonValue.bool false)))
    (JsonFields.erase "_notification" kwargs)

end Server

/-- The HTTP response object returned by the transport: status, reason
phrase, and the JSON decoding of its body (`none` when `response.json()`
raises `ValueError`). -/
structure HttpResponse where
  status : Nat
  reason : String
  body : Option JsonValue
deriving DecidableEq

/-- Result of `Server.send_request` once a response object exists. -/
inductive SendOutcome where
  | ok (v : JsonValue)
  | notificationDone
  | transportError (msg : String)
  | protocolError (args : List JsonValue)
  | attributeError
deriving DecidableEq

/-- Trace of one `send_request` execution from the point the response
object exists: the outcome, whether the response body was read/parsed, and
whether `response.release()` ran. -/
structure SendTrace where
  outcome : SendOutcome
  body_read : Bool
  released : Bool
deriving DecidableEq

namespace Server

/-- Embedding of the `try/finally` block of `Server.send_request` (the part
after the POST returned a response object). The `finally: yield from
response.release()` clause runs on every path, so `released` is recorded on
each branch exactly as the control flow reaches it. -/
def send_request (is_notification : Bool) (response : HttpResponse) : SendTrace :=
  if response.status ≠ 200 then
    { outcome := SendOutcome.transportError
        ("HTTP " ++ toString response.status ++ " " ++ response.reason),
      body_read := false, released := true }
  else if is_notification then
    { outcome := SendOutcome.notificationDone, body_read := false, released := true }
  else
    match response.body with
    | none =>
        { outcome := SendOutcome.transportError "Cannot deserialize response body",
          body_read := true, released := true }
    | some parsed =>
        match parse_result parsed with
        | ParseOutcome.ok v =>
            { outcome := SendOutcome.ok v, body_read := true, released := true }
        | ParseOutcome.protocolError args =>
            { outcome := SendOutcome.protocolError args, body_read := true, released := true }
        | ParseOutcome.attributeError =>
            { outcome := SendOutcome.attributeError, body_read := true, released := true }

/-- The envelope of the `n`-th non-notification call of a session whose
successive `random.randint(1, sys.maxsize)` draws are given by `src`. -/
def sessionEnvelope (src : Nat → Nat) (n : Nat) (method_name : String)
    (params : JsonValue) : JsonFields :=
  serialize_data method_name params false (src n)

end Server

/-- `sys.maxsize` on a 64-bit CPython. -/
def sys_maxsize : Nat := 2 ^ 63 - 1

/-- The proxy object of class `Method`: it only stores the accumulated
dotted method name (the dispatch reference is the `Server.__request`
embedding above). -/
structure Method where
  method_name : String
deriving DecidableEq

/-- `name.startswith("_")`: the string is non-empty and its first character
is the private marker. -/
def startsWithUnderscore (s : String) : Bool :=
  match s.data with
  | [] => false
  | c :: _ => c = '_'

/-- `Method.__init__`: rejects names that start with the private marker. -/
def methodInit (method_name : String) : Except String Method :=
  if startsWithUnderscore method_name then
    Except.error ("invalid attribute \x27" ++ method_name ++ "\x27")
  else
    Except.ok ⟨method_name⟩

/-- `Method.__getattr__`: rejects private segments, otherwise extends the
dotted name. -/
def methodGetattr (m : Method) (seg : String) : Except String Method :=
  if startsWithUnderscore seg then
    Except.error ("invalid attribute \x27" ++ seg ++ "\x27")
  else
    Except.ok ⟨m.method_name ++ "." ++ seg⟩

/-- `Server.__getattr__`: builds the initial proxy (whose `__init__` checks
the first segment). -/
def server_getattr (method_name : String) : Except String Method :=
  methodInit method_name

/-- A chain of further attribute accesses on a proxy. -/
def chainFrom (m : Method) : List String → Except String Method
  | [] => Except.ok m
  | seg :: rest =>
      match methodGetattr m seg with
      | Except.error e => Except.error e
      | Except.ok m' => chainFrom m' rest

/-- The whole access chain `server.first.rest₀.rest₁...`. -/
def accessChain (first : String) (rest : List String) : Except String Method :=
  match server_getattr first with
  | Except.error e => Except.error e
  | Except.ok m => chainFrom m rest

/-- `Method.__call__`: forwards the accumulated name, the positional and
the keyword arguments to `Server.__request`. -/
def methodCall (m : Method) (args : JsonList) (kwargs : JsonFields) : RequestOutcome :=
  Server.__request m.method_name args kwargs

/-- The dot-joined method name the spec describes: segments joined with "."
in access order. -/
def dotJoin (base : String) (segs : List String) : String :=
  segs.foldl (fun acc s => acc ++ "." ++ s) base

def exceptIsOk : Except String Method → Bool
  | Except.ok _ => true
  | Except.error _ => false

/-- A constant id source: one possible realization of the successive
`random.randint(1, sys.maxsize)` draws (each draw lies in range). -/
def constSource : Nat → Nat := fun _ => 5

/-! ## Helper lemmas -/

theorem lookup_none_erase (k : String) (fs : JsonFields)
    (h : JsonFields.lookup k fs = none) : JsonFields.erase k fs = fs :=
  match fs with
  | JsonFields.nil => rfl
  | JsonFields.cons k' v rest => by
      by_cases hk : k' = k
      · simp [JsonFields.lookup, hk] at h
      · simp only [JsonFields.lookup, hk, if_false] at h
        simp [JsonFields.erase, hk, lookup_none_erase k rest h]

theorem chainFrom_join (segs : List String) (m : Method)
    (h : ∀ s ∈ segs, startsWithUnderscore s = false) :
    chainFrom m segs = Except.ok ⟨dotJoin m.method_name segs⟩ := by
  induction segs generalizing m with
  | nil => simp [chainFrom, dotJoin]
  | cons s rest ih =>
      have hs : startsWithUnderscore s = false := h s (by simp)
      have hrest : ∀ x ∈ rest, startsWithUnderscore x = false :=
        fun x hx => h x (by simp [hx])
      simp only [chainFrom, methodGetattr, hs, Bool.false_eq_true, if_false]
      exact ih ⟨m.method_name ++ "." ++ s⟩ hrest

theorem chainFrom_underscore (segs : List String) (m : Method)
    (h : segs.any (fun s => startsWithUnderscore s) = true) :
    exceptIsOk (chainFrom m segs) = false := by
  induction segs generalizing m with
  | nil => simp at h
  | cons s rest ih =>
      by_cases hs : startsWithUnderscore s = true
      · simp [chainFrom, methodGetattr, hs, exceptIsOk]
      · have hs' : startsWithUnderscore s = false := by
          simpa using hs
        have h' : rest.any (fun s => startsWithUnderscore s) = true := by
          simpa [hs'] using h
        simp only [chainFrom, methodGetattr, hs', Bool.false_eq_true, if_false]
        exact ih _ h'

/-! ## C1 -/

/-- C1 (amended): `parse_result` returns the value of the `result` key
verbatim when the input is a mapping containing `result` and no truthy
`error`; raises a `ProtocolError` carrying the error's `code`, `message`
(each defaulting to the empty string) and the raw response when the input
is a mapping whose `error` field is a truthy mapping; raises
`ProtocolError` "Response without a result field" when the input is a
mapping with neither a truthy `error` nor a `result` key; and raises
`ProtocolError` "Response is not a dictionary" for every non-mapping
input. -/
theorem parse_result_classification :
    (∀ fields v, JsonFields.lookup "result" fields = some v →
        truthy ((JsonFields.lookup "error" fields).getD JsonValue.null) = false →
        Server.parse_result (JsonValue.obj fields) = ParseOutcome.ok v)
    ∧ (∀ fields ef, JsonFields.lookup "error" fields = some (JsonValue.obj ef) →
        truthy (JsonValue.obj ef) = true →
        Server.parse_result (JsonValue.obj fields) =
          ParseOutcome.protocolError
            [(JsonFields.lookup "code" ef).getD (JsonValue.str ""),
             (JsonFields.lookup "message" ef).getD (JsonValue.str ""),
             JsonValue.obj fields])
    ∧ (∀ fields, truthy ((JsonFields.lookup "error" fields).getD JsonValue.null) = false →
        JsonFields.lookup "result" fields = none →
        Server.parse_result (JsonValue.obj fields) =
          ParseOutcome.protocolError [JsonValue.str "Response without a result field"])
    ∧ (∀ r : JsonValue, isObj r = false →
        Server.parse_result r =
          ParseOutcome.protocolError [JsonValue.str "Response is not a dictionary"]) := by
  refine ⟨?_, ?_, ?_, ?_⟩
  · intro fields v hr htr
    cases he : JsonFields.lookup "error" fields with
    | none => simp [Server.parse_result, he, Server.resultField, hr]
    | some err =>
        rw [he] at htr
        simp only [Option.getD_some] at htr
        simp [Server.parse_result, he, htr, Server.resultField, hr]
  · intro fields ef he ht
    simp [Server.parse_result, he, ht]
  · intro fields htr hr
    cases he : JsonFields.lookup "error" fields with
    | none => simp [Server.parse_result, he, Server.resultField, hr]
    | some err =>
        rw [he] at htr
        simp only [Option.getD_some] at htr
        simp [Server.parse_result, he, htr, Server.resultField, hr]
  · intro r hro
    cases r with
    | obj fields => simp [isObj] at hro
    | null => rfl
    | bool b => rfl
    | num n => rfl
    | str s => rfl
    | arr xs => rfl

theorem parse_result_classification_witness :
    Server.parse_result (JsonValue.obj (JsonFields.cons "result" (JsonValue.num 42) JsonFields.nil))
      = ParseOutcome.ok (JsonValue.num 42)
    ∧ Server.parse_result
        (JsonValue.obj (JsonFields.cons "error"
          (JsonValue.obj (JsonFields.cons "code" (JsonValue.num 1)
            (JsonFields.cons "message" (JsonValue.str "bad") JsonFields.nil))) JsonFields.nil))
      = ParseOutcome.protocolError
          [JsonValue.num 1, JsonValue.str "bad",
           JsonValue.obj (JsonFields.cons "error"
             (JsonValue.obj (JsonFields.cons "code" (JsonValue.num 1)
               (JsonFields.cons "message" (JsonValue.str "bad") JsonFields.nil))) JsonFields.nil)]
    ∧ Server.parse_result (JsonValue.obj JsonFields.nil)
      = ParseOutcome.protocolError [JsonValue.str "Response without a result field"]
    ∧ Server.parse_result (JsonValue.str "not-a-dict")
      = ParseOutcome.protocolError [JsonValue.str "Response is not a dictionary"] :=
  ⟨parse_result_classification.1
     (JsonFields.cons "result" (JsonValue.num 42) JsonFields.nil)
     (JsonValue.num 42) (by decide) (by decide),
   parse_result_classification.2.1
     (JsonFields.cons "error"
       (JsonValue.obj (JsonFields.cons "code" (JsonValue.num 1)
         (JsonFields.cons "message" (JsonValue.str "bad") JsonFields.nil))) JsonFields.nil)
     (JsonFields.cons "code" (JsonValue.num 1)
       (JsonFields.cons "message" (JsonValue.str "bad") JsonFields.nil))
     (by decide) (by decide),
   parse_result_classification.2.2.1 JsonFields.nil (by decide) (by decide),
   parse_result_classification.2.2.2 (JsonValue.str "not-a-dict") (by decide)⟩

/-- C1 counterexample: on a mapping whose `error` field is truthy but not a
mapping, `parse_result` does not raise a `ProtocolError` at all (with
`code`/`message` defaulting to the empty string as the liberal reading would
have it, or any other payload): it raises an `AttributeError`. -/
theorem parse_result_truthy_error_cex :
    Server.parse_result
        (JsonValue.obj (JsonFields.cons "error"
          (JsonValue.arr (JsonList.cons (JsonValue.num 1) JsonList.nil)) JsonFields.nil))
      = ParseOutcome.attributeError
    ∧ Server.parse_result
        (JsonValue.obj (JsonFields.cons "error"
          (JsonValue.arr (JsonList.cons (JsonValue.num 1) JsonList.nil)) JsonFields.nil))
      ≠ ParseOutcome.protocolError
          [JsonValue.str "", JsonValue.str "",
           JsonValue.obj (JsonFields.cons "error"
             (JsonValue.arr (JsonList.cons (JsonValue.num 1) JsonList.nil)) JsonFields.nil)] := by
  exact ⟨by decide, by decide⟩

/-! ## C2 -/

/-- C2: evaluation of the code at the failing input. A mapping whose
`error` field is truthy but not itself a mapping makes `parse_result` call
`.get` on a non-dict value, raising an unintended `AttributeError` instead
of the intended liberal `ProtocolError`. -/
theorem parse_result_malformed_error_crash :
    Server.parse_result
        (JsonValue.obj (JsonFields.cons "error" (JsonValue.str "boom") JsonFields.nil))
      = ParseOutcome.attributeError
    ∧ Server.parse_result
        (JsonValue.obj (JsonFields.cons "error" (JsonValue.num 7) JsonFields.nil))
      = ParseOutcome.attributeError := by
  exact ⟨by decide, by decide⟩

/-! ## C3 -/

/-- C3: when, after the `_notification` flag is popped, both the positional
and the keyword arguments are non-empty, the dispatch raises the
`ProtocolError` about mixed arguments; the outcome is not a
`send_request` invocation, so the transport's `post` capability is never
invoked. -/
theorem mixed_args_no_request (method_name : String) (args : JsonList)
    (kwargs : JsonFields)
    (h1 : args.isEmpty = false)
    (h2 : (JsonFields.erase "_notification" kwargs).isEmpty = false) :
    Server.__request method_name args kwargs
      = RequestOutcome.protocolError
          "JSON-RPC spec forbids mixing arguments and keyword arguments" := by
  simp [Server.__request, Server.requestAfterPop, h1, h2]

theorem mixed_args_no_request_witness :
    Server.__request "sum" (JsonList.cons (JsonValue.num 1) JsonList.nil)
        (JsonFields.cons "a" (JsonValue.num 2) JsonFields.nil)
      = RequestOutcome.protocolError
          "JSON-RPC spec forbids mixing arguments and keyword arguments" :=
  mixed_args_no_request "sum" (JsonList.cons (JsonValue.num 1) JsonList.nil)
    (JsonFields.cons "a" (JsonValue.num 2) JsonFields.nil) (by decide) (by decide)

/-! ## C4 -/

/-- C4: a notification envelope never contains an `id` field and the
response body is never read or parsed after the request is issued; a
non-notification envelope contains the freshly drawn integer id. -/
theorem notification_no_id_no_body_read (method_name : String)
    (params : JsonValue) (idVal : Nat) (response : HttpResponse) :
    JsonFields.lookup "id" (Server.serialize_data method_name params true idVal) = none
    ∧ (Server.send_request true response).body_read = false
    ∧ JsonFields.lookup "id" (Server.serialize_data method_name params false idVal)
        = some (JsonValue.num idVal) := by
  refine ⟨?_, ?_, ?_⟩
  · unfold Server.serialize_data
    cases htp : truthy params
    · rfl
    · rfl
  · unfold Server.send_request
    split
    · rfl
    · rfl
  · unfold Server.serialize_data
    cases htp : truthy params
    · rfl
    · rfl

/-! ## C5 -/

/-- C5 counterexample: a mapping containing the key `_notification` is not
serialized identically when passed positionally and as keyword arguments:
as keyword arguments the key is popped as the notification flag (the call
becomes a notification with empty params), positionally it stays inside the
params object. -/
theorem single_mapping_notification_key_cex :
    Server.__request "m"
        (JsonList.cons (JsonValue.obj
          (JsonFields.cons "_notification" (JsonValue.bool true) JsonFields.nil)) JsonList.nil)
        JsonFields.nil
      ≠ Server.__request "m" JsonList.nil
          (JsonFields.cons "_notification" (JsonValue.bool true) JsonFields.nil) := by
  decide

/-- C5 (amended): for every mapping without the reserved `_notification`
key, passing it as the single positional argument dispatches exactly the
same call (same method, same notification flag, same params structure,
hence the same serialized body under any encoding) as passing its entries
as keyword arguments. -/
theorem single_mapping_positional_eq_kwargs (method_name : String)
    (fields : JsonFields)
    (h : JsonFields.lookup "_notification" fields = none) :
    Server.__request method_name
        (JsonList.cons (JsonValue.obj fields) JsonList.nil) JsonFields.nil
      = Server.__request method_name JsonList.nil fields := by
  have herase := lookup_none_erase "_notification" fields h
  unfold Server.__request
  rw [h, herase]
  cases fields with
  | nil => rfl
  | cons k v rest => rfl

theorem single_mapping_positional_eq_kwargs_witness :
    Server.__request "m"
        (JsonList.cons (JsonValue.obj
          (JsonFields.cons "a" (JsonValue.num 1) JsonFields.nil)) JsonList.nil)
        JsonFields.nil
      = Server.__request "m" JsonList.nil
          (JsonFields.cons "a" (JsonValue.num 1) JsonFields.nil) :=
  single_mapping_positional_eq_kwargs "m"
    (JsonFields.cons "a" (JsonValue.num 1) JsonFields.nil) (by decide)

/-! ## C6 -/

/-- C6 counterexample: the id of a call is exactly the current draw of
`random.randint(1, sys.maxsize)`; nothing enforces distinctness, so a
session whose draws repeat (here the constant in-range sequence 5, 5, ...)
assigns the same id to two distinct calls. -/
theorem session_ids_collide_cex :
    JsonFields.lookup "id" (Server.sessionEnvelope constSource 0 "mth" JsonValue.null)
      = some (JsonValue.num 5)
    ∧ JsonFields.lookup "id" (Server.sessionEnvelope constSource 1 "mth" JsonValue.null)
      = some (JsonValue.num 5)
    ∧ 1 ≤ constSource 0 ∧ constSource 0 ≤ sys_maxsize
    ∧ 1 ≤ constSource 1 ∧ constSource 1 ≤ sys_maxsize := by
  refine ⟨rfl, rfl, by decide, ?_, by decide, ?_⟩
  · show (5 : Nat) ≤ sys_maxsize
    norm_num [sys_maxsize]
  · show (5 : Nat) ≤ sys_maxsize
    norm_num [sys_maxsize]

/-- C6 (amended): the envelope id of every non-notification call is freshly
drawn from the random source for that call (and lies in the
`random.randint(1, sys.maxsize)` range); uniqueness of the ids of distinct
calls is not guaranteed by the code, only as likely as the draws being
distinct. -/
theorem id_fresh_per_call (src : Nat → Nat) (n : Nat) (method_name : String)
    (params : JsonValue)
    (h : ∀ k, 1 ≤ src k ∧ src k ≤ sys_maxsize) :
    JsonFields.lookup "id" (Server.sessionEnvelope src n method_name params)
      = some (JsonValue.num (src n))
    ∧ 1 ≤ src n ∧ src n ≤ sys_maxsize := by
  refine ⟨?_, (h n).1, (h n).2⟩
  unfold Server.sessionEnvelope Server.serialize_data
  cases htp : truthy params
  · rfl
  · rfl

theorem id_fresh_per_call_witness :
    JsonFields.lookup "id" (Server.sessionEnvelope constSource 2 "mth" JsonValue.null)
      = some (JsonValue.num 5)
    ∧ 1 ≤ constSource 2 ∧ constSource 2 ≤ sys_maxsize :=
  id_fresh_per_call constSource 2 "mth" JsonValue.null
    (fun _ => ⟨(by norm_num : (1 : Nat) ≤ 5), (by norm_num [sys_maxsize] : (5 : Nat) ≤ sys_maxsize)⟩)

/-! ## C7 -/

/-- C7: for every chain of attribute accesses on the connection object
whose segments are all public, the final invocation dispatches exactly the
request for the dot-joined segment names, in access order. -/
theorem dispatched_name_dot_join (first : String) (rest : List String)
    (args : JsonList) (kwargs : JsonFields)
    (h : ∀ s ∈ first :: rest, startsWithUnderscore s = false) :
    (accessChain first rest).map (fun m => methodCall m args kwargs)
      = Except.ok (Server.__request (dotJoin first rest) args kwargs) := by
  have h1 : startsWithUnderscore first = false := h first (by simp)
  have h2 : ∀ s ∈ rest, startsWithUnderscore s = false :=
    fun s hs => h s (by simp [hs])
  unfold accessChain server_getattr methodInit
  simp only [h1, Bool.false_eq_true, if_false]
  rw [chainFrom_join rest ⟨first⟩ h2]
  rfl

theorem dispatched_name_dot_join_witness :
    (accessChain "foo" ["bar", "baz"]).map
        (fun m => methodCall m JsonList.nil JsonFields.nil)
      = Except.ok (Server.__request "foo.bar.baz" JsonList.nil JsonFields.nil) :=
  dispatched_name_dot_join "foo" ["bar", "baz"] JsonList.nil JsonFields.nil (by decide)

/-! ## C8 -/

/-- C8: as soon as a chain of attribute accesses contains a segment that
begins with an underscore — at any position — the proxy construction fails
with an error; no `Method` value is produced, so no call (and no network
interaction) can follow. -/
theorem underscore_segment_fails (first : String) (rest : List String)
    (h : (first :: rest).any (fun s => startsWithUnderscore s) = true) :
    exceptIsOk (accessChain first rest) = false := by
  by_cases h1 : startsWithUnderscore first = true
  · unfold accessChain server_getattr methodInit
    simp [h1, exceptIsOk]
  · have h1' : startsWithUnderscore first = false := by simpa using h1
    have h2 : rest.any (fun s => startsWithUnderscore s) = true := by
      simpa [h1'] using h
    unfold accessChain server_getattr methodInit
    simp only [h1', Bool.false_eq_true, if_false]
    exact chainFrom_underscore rest ⟨first⟩ h2

theorem underscore_segment_fails_witness :
    exceptIsOk (accessChain "user" ["_private"]) = false
    ∧ exceptIsOk (accessChain "_user" []) = false :=
  ⟨underscore_segment_fails "user" ["_private"] (by decide),
   underscore_segment_fails "_user" [] (by decide)⟩

/-! ## C9 -/

/-- C9: from the moment the HTTP response object exists,
`response.release()` runs on every exit path of `send_request` — success,
notification completion, non-success status, undecodable body, protocol
error from `parse_result`, and even the unintended `AttributeError`. -/
theorem response_released_on_every_path (is_notification : Bool)
    (response : HttpResponse) :
    (Server.send_request is_notification response).released = true := by
  unfold Server.send_request
  split
  · rfl
  · split
    · rfl
    · split
      · rfl
      · split <;> rfl

/-! ## C10 -/

/-- C10 counterexample: a call whose positional argument is a mapping
containing a `_notification` key (and whose only keyword argument is
`_notification`) does serialize a `_notification` key inside its params:
the positional mapping is forwarded verbatim as the params object. -/
theorem notification_key_in_params_cex :
    Server.__request "m"
        (JsonList.cons (JsonValue.obj
          (JsonFields.cons "_notification" (JsonValue.num 1) JsonFields.nil)) JsonList.nil)
        (JsonFields.cons "_notification" (JsonValue.bool true) JsonFields.nil)
      = RequestOutcome.send "m" true
          (JsonValue.obj (JsonFields.cons "_notification" (JsonValue.num 1) JsonFields.nil)) := by
  decide

/-- C10 (amended): the `_notification` flag is popped from the keyword
arguments before the mutual-exclusion check: a call with non-empty
positional arguments whose only keyword argument is `_notification` does
not raise the mixed-arguments `ProtocolError`, the flag's truthiness
selects the notification path, and the params are built from the positional
arguments alone — the `_notification` keyword argument itself is never
forwarded (though a `_notification` key inside a positional mapping
argument is forwarded verbatim). -/
theorem notification_flag_removed (method_name : String) (args : JsonList)
    (v : JsonValue) (h : args.isEmpty = false) :
    Server.__request method_name args
        (JsonFields.cons "_notification" v JsonFields.nil)
      = RequestOutcome.send method_name (truthy v)
          (if truthy (unwrapArgs args) then unwrapArgs args
           else JsonValue.obj JsonFields.nil) := by
  have hpop : Server.__request method_name args
      (JsonFields.cons "_notification" v JsonFields.nil)
      = Server.requestAfterPop method_name args (truthy v) JsonFields.nil := rfl
  rw [hpop]
  unfold Server.requestAfterPop
  rw [h]
  rfl

theorem notification_flag_removed_witness :
    Server.__request "ping" (JsonList.cons (JsonValue.num 7) JsonList.nil)
        (JsonFields.cons "_notification" (JsonValue.bool true) JsonFields.nil)
      = RequestOutcome.send "ping" true
          (JsonValue.arr (JsonList.cons (JsonValue.num 7) JsonList.nil)) :=
  notification_flag_removed "ping" (JsonList.cons (JsonValue.num 7) JsonList.nil)
    (JsonValue.bool true) (by decide)
